import Mathlib

/-
Verification development for the browser-side logic of the
Heart-Disease-Risk-Prediction web application.

Two scripts are modelled:
  * `static/js/resScript.js` — slider limit normalization, canonical key
    resolution, and the asynchronous update cycle (namespace `ResScript`);
  * `static/js/script.js` — the tabbed form navigator and field validator
    (namespace `FormNav`).

JavaScript numbers reached through `parseFloat` are modelled as `Option ℚ`
with `none` playing the role of NaN; every comparison against NaN is false,
which the `Option` matches make explicit.  All string keys handled by the
scripts are ASCII, so `Char.toLower` coincides with the JS `toLowerCase`
on every input the theorems touch.
-/

namespace ResScript

/-- A JS number as observed through `parseFloat`: `none` is NaN
(also covering an absent attribute, whose `parseFloat` is NaN). -/
abbrev JsNum := Option ℚ

/-- One entry of the canonical limits table: `{ min, max, step }`. -/
structure Limit where
  min : ℚ
  max : ℚ
  step : ℚ
deriving DecidableEq, Repr

/-- The `LIMITS` table of `resScript.js`: canonical feature keys mapped to
canonical `{min, max, step}` bounds. -/
def LIMITS : List (String × Limit) := [
  ("age", ⟨18, 100, 1⟩),
  ("bmi", ⟨10, 60, mkRat 1 10⟩),
  ("heartrate", ⟨40, 200, 1⟩),
  ("sysbp", ⟨80, 250, 1⟩),
  ("diabp", ⟨50, 150, 1⟩),
  ("restingbps", ⟨80, 200, 1⟩),
  ("maxheartrate", ⟨60, 220, 1⟩),
  ("cholesterol", ⟨100, 400, 1⟩),
  ("totchol", ⟨100, 400, 1⟩),
  ("oldpeak", ⟨0, 6, mkRat 1 10⟩),
  ("stslope", ⟨0, 2, 1⟩),
  ("fastingbloodsugar", ⟨0, 1, 1⟩),
  ("sex", ⟨0, 1, 1⟩),
  ("chestpaintype", ⟨0, 3, 1⟩),
  ("exerciseangina", ⟨0, 1, 1⟩),
  ("currentsmoker", ⟨0, 1, 1⟩),
  ("cigsperday", ⟨0, 60, 1⟩),
  ("bpmeds", ⟨0, 1, 1⟩),
  ("prevalentstroke", ⟨0, 1, 1⟩),
  ("prevalenthyp", ⟨0, 1, 1⟩),
  ("diabetes", ⟨0, 1, 1⟩),
  ("restecg", ⟨0, 2, 1⟩)]

/-- The `SYN` table of `resScript.js`: alternate spellings mapped to
canonical limits keys. -/
def SYN : List (String × String) := [
  ("cholesterolmgdl", "cholesterol"),
  ("restingbpmmhg", "restingbps"),
  ("maxheartratebpm", "maxheartrate"),
  ("oldpeakstdepression", "oldpeak"),
  ("stslope", "stslope"),
  ("fastingbloodsugar", "fastingbloodsugar"),
  ("exerciseinducedangina", "exerciseangina"),
  ("trestbps", "restingbps"),
  ("thalach", "maxheartrate"),
  ("fbs", "fastingbloodsugar"),
  ("cp", "chestpaintype"),
  ("exang", "exerciseangina"),
  ("restingbps", "restingbps"),
  ("restingbpsystolic", "restingbps"),
  ("resting-bp-s", "restingbps"),
  ("max-heart-rate", "maxheartrate")]

/-- `LIMITS[k]` as an association-list lookup. -/
def limitsLookup (k : String) : Option Limit := LIMITS.lookup k

/-- `SYN[k]` as an association-list lookup. -/
def synLookup (k : String) : Option String := SYN.lookup k

/-- Characters kept by the final `[^a-z0-9]` strip of `normalizeKey`. -/
def isLowerAlnum (c : Char) : Bool :=
  (('a' ≤ c) && (c ≤ 'z')) || (('0' ≤ c) && (c ≤ '9'))

/-- `normalizeKey`: lowercase, then strip whitespace, the listed separators
and finally every non-`[a-z0-9]` character.  The three successive `replace`
calls of the source are jointly one filter, since whitespace and the listed
separators are themselves outside `[a-z0-9]`. -/
def normalizeKey (s : String) : String :=
  String.mk ((s.data.map Char.toLower).filter isLowerAlnum)

/-- `canonicalKey`: direct hit in `LIMITS` wins, then the synonym table,
otherwise the normalized-but-unresolved key is returned. -/
def canonicalKey (raw : String) : String :=
  let k := normalizeKey raw
  match limitsLookup k with
  | some _ => k
  | none =>
    match synLookup k with
    | some c => c
    | none => k

/-- `clamp(v, lo, hi)`: NaN collapses to `lo`, otherwise
`Math.min(hi, Math.max(lo, x))`. -/
def clamp (v : JsNum) (lo hi : ℚ) : ℚ :=
  match v with
  | none => lo
  | some x => min hi (max lo x)

/-- The `step` DOM property of a slider, keeping exactly the distinctions
the source observes: truthiness of the string, equality with `"any"`, and
its `parseFloat`.  `other` is a nonempty string distinct from `"any"`
whose `parseFloat` is NaN. -/
inductive StepVal where
  | empty
  | anyStr
  | num (q : ℚ)
  | other
deriving DecidableEq, Repr

/-- The guard `!input.step || input.step === "any" || parseFloat(input.step) <= 0`
(for `other`, `NaN <= 0` is false, so the step is kept). -/
def stepNeedsFix : StepVal → Bool
  | .empty => true
  | .anyStr => true
  | .num q => decide (q ≤ 0)
  | .other => false

/-- Whether a `step` property currently holds a positive number. -/
def stepIsPosNum : StepVal → Bool
  | .num q => decide (0 < q)
  | _ => false

/-- A slider control (`input.slider`), observed through the properties the
script reads: `data-feat` (`none` = attribute absent), `id`, `name`, the
`parseFloat` of `min` / `max` / `value`, and the `step` string. -/
structure Slider where
  datasetFeat : Option String
  id : String
  name : String
  min : JsNum
  max : JsNum
  step : StepVal
  value : JsNum
deriving DecidableEq, Repr

/-- `input.dataset.feat || input.id || input.name || ""` (an empty string
is falsy and falls through). -/
def featRaw (s : Slider) : String :=
  let fromFeat := (s.datasetFeat).getD ""
  if fromFeat = "" then (if s.id = "" then s.name else s.id) else fromFeat

/-- The min-bound guard of `applyLimitsFromMap`:
`if (isNaN(curMin) || curMin < -50 || curMin > lim.min) input.min = lim.min`. -/
def fixMin (cur : JsNum) (canonMin : ℚ) : JsNum :=
  match cur with
  | none => some canonMin
  | some q => if q < -50 ∨ canonMin < q then some canonMin else some q

/-- The max-bound guard of `applyLimitsFromMap`:
`if (isNaN(curMax) || curMax > 500 || curMax < lim.max) input.max = lim.max`. -/
def fixMax (cur : JsNum) (canonMax : ℚ) : JsNum :=
  match cur with
  | none => some canonMax
  | some q => if 500 < q ∨ q < canonMax then some canonMax else some q

/-- `applyLimitsFromMap`: resolve the feature key; when it has a limits
entry, repair the declared bounds and step and clamp the current value into
the canonical range (`String(lim.step || 1)` keeps a nonzero step and falls
back to 1 on a zero one). -/
def applyLimitsFromMap (s : Slider) : Slider :=
  match limitsLookup (canonicalKey (featRaw s)) with
  | none => s
  | some lim =>
    let newMin := fixMin s.min lim.min
    let newMax := fixMax s.max lim.max
    let newStep :=
      if stepNeedsFix s.step then StepVal.num (if lim.step = 0 then 1 else lim.step)
      else s.step
    { s with
      min := newMin
      max := newMax
      step := newStep
      value := some (clamp s.value lim.min lim.max) }

/-- A tip entry of the server response: either a plain string or a
structured `{ feature, tip }` object. -/
inductive Tip where
  | plain (text : String)
  | structured (feature tip : String)
deriving DecidableEq, Repr

/-- One element of `top_features_values`: `{ name, value }`. -/
structure Correction where
  name : String
  value : JsNum
deriving DecidableEq, Repr

/-- The JSON body of a successful `/predict` response; `none` marks an
absent field (`Array.isArray` and the truthiness checks of the source
treat an absent field and a non-array alike, which `none` covers). -/
structure RespData where
  final_cat : Option String
  final_prob : Option ℚ
  tips : Option (List Tip)
  suggestions : Option (List Tip)
  top_features_values : Option (List Correction)
deriving DecidableEq, Repr

/-- Outcome of the `fetch("/predict", ...)` round trip: a parsed body on a
2xx status, the status code when `!resp.ok` (which the handler turns into a
thrown and caught error), or a transport failure (rejected promise). -/
inductive FetchResult where
  | ok (d : RespData)
  | httpError (status : Nat)
  | netError
deriving DecidableEq, Repr

/-- The page as the update handler observes and mutates it: the sliders,
whether the page-injected `BASE_INPUTS` global is defined, the update
button state, the text of the result element (`none` = element absent),
the rendered items of the suggestions list (`none` = list absent), the
alerts shown so far, and the `modified` maps of the requests issued. -/
structure PageState where
  sliders : List Slider
  baseDefined : Bool
  btnDisabled : Bool
  btnLabel : String
  resultText : Option String
  suggList : Option (List String)
  alerts : List String
  requests : List (List (String × JsNum))
deriving DecidableEq, Repr

/-- The `modified` map: for each slider, `s.dataset.feat || s.id || s.name
|| null`, skipped when falsy, mapped to the slider's current value. -/
def buildModified (sliders : List Slider) : List (String × JsNum) :=
  sliders.filterMap (fun s => if featRaw s = "" then none else some (featRaw s, s.value))

/-- `Number.prototype.toFixed(1)`, modelled by exact rational rounding
(the source applies it to a float; the claims never depend on the digits). -/
def toFixed1 (x : ℚ) : String :=
  let n : ℤ := ⌊x * 10 + mkRat 1 2⌋
  toString (n / 10) ++ "." ++ toString ((n % 10).natAbs)

/-- New text of the result element: `final_cat` when truthy, else the
percentage of `final_prob` when that field is present, else unchanged. -/
def updateResultText (txt : String) (d : RespData) : String :=
  match d.final_cat with
  | some c =>
    if c = "" then
      match d.final_prob with
      | some p => toFixed1 (p * 100) ++ "%"
      | none => txt
    else c
  | none =>
    match d.final_prob with
    | some p => toFixed1 (p * 100) ++ "%"
    | none => txt

/-- Rendering of one tip `<li>`: a structured tip with truthy `feature` and
`tip` renders as emphasised feature plus text; otherwise `textContent`
receives the value (an object stringifies as shown). -/
def renderTip : Tip → String
  | .plain t => t
  | .structured f tip =>
    if f = "" ∨ tip = "" then "[object Object]"
    else "<strong>" ++ f ++ "</strong> — " ++ tip

/-- `document.querySelector('input.slider[data-feat="..."]')` followed by
the value write, `applyLimitsFromMap` and the label refresh: only the first
slider whose `data-feat` attribute equals the returned name is touched. -/
def updateFirstMatch (nm : String) (v : JsNum) : List Slider → List Slider
  | [] => []
  | s :: rest =>
    if s.datasetFeat = some nm then
      applyLimitsFromMap { s with value := v } :: rest
    else
      s :: updateFirstMatch nm v rest

/-- The `top_features_values.forEach` loop. -/
def applyCorrections (sliders : List Slider) (items : List Correction) : List Slider :=
  items.foldl (fun ss c => updateFirstMatch c.name c.value ss) sliders

/-- The success branch of the handler: patch the result element, replace
the suggestions list from `tips` else `suggestions` (an empty array is
truthy, so a present empty `tips` wins), and apply slider corrections. -/
def applySuccess (st : PageState) (d : RespData) : PageState :=
  let newResult := st.resultText.map (fun txt => updateResultText txt d)
  let newSugg :=
    match d.tips with
    | some ts => st.suggList.map (fun _ => ts.map renderTip)
    | none =>
      match d.suggestions with
      | some ts => st.suggList.map (fun _ => ts.map renderTip)
      | none => st.suggList
  let newSliders :=
    match d.top_features_values with
    | some items => applyCorrections st.sliders items
    | none => st.sliders
  { st with resultText := newResult, suggList := newSugg, sliders := newSliders }

/-- Alert text of the missing-`BASE_INPUTS` early return. -/
def missingBaseMsg : String := "Base input values missing — update cannot run."

/-- Alert text of the catch branch. -/
def updateFailedMsg : String := "Failed to update prediction. Check server logs."

/-- The `update-btn` click handler: build `modified`; abort with an alert
when `BASE_INPUTS` is undefined (before the button is touched); otherwise
disable the button, show the busy label, issue the request, patch the DOM
on success or alert on failure, and in the `finally` block re-enable the
button and restore its label. -/
def clickHandler (st : PageState) (resp : FetchResult) : PageState :=
  let modified := buildModified st.sliders
  if !st.baseDefined then
    { st with alerts := st.alerts ++ [missingBaseMsg] }
  else
    let busy := { st with
      btnDisabled := true
      btnLabel := "Updating..."
      requests := st.requests ++ [modified] }
    let after :=
      match resp with
      | .ok d => applySuccess busy d
      | .httpError _ => { busy with alerts := busy.alerts ++ [updateFailedMsg] }
      | .netError => { busy with alerts := busy.alerts ++ [updateFailedMsg] }
    { after with btnDisabled := false, btnLabel := "Update Prediction" }

end ResScript

namespace FormNav

/-- A tab control: its `data-target` (`none` = attribute absent), whether
its class list holds `active`, and its `aria-selected` attribute
(`none` = attribute absent, `some b` = the stringified flag). -/
structure Tab where
  target : Option String
  active : Bool
  ariaSelected : Option Bool
deriving DecidableEq, Repr

/-- A tab panel: its `id`, whether its class list holds `active`, its
`aria-hidden` attribute, and the identifier of its first `input, select`
descendant (`none` = no focusable field). -/
structure Panel where
  id : String
  active : Bool
  ariaHidden : Option Bool
  firstInput : Option String
deriving DecidableEq, Repr

/-- The navigator's view of the document: the `.tab-panel` and `.tab`
collections and the currently focused element (`none` = body). -/
structure NavState where
  panels : List Panel
  tabs : List Tab
  focus : Option String
deriving DecidableEq, Repr

/-- `showPanelById(targetId)`: toggle every panel's `active` class and
`aria-hidden` on `panel.id === targetId`, mirror onto every tab via
`tab.dataset.target === targetId` (an absent `data-target` compares equal
to an undefined identifier), then focus the first field of
`getElementById(targetId)` when that panel exists and has one.  The
identifier is `Option String` so that a call forwarding an absent
`data-target` (undefined) is representable. -/
def showPanelById (st : NavState) (targetId : Option String) : NavState :=
  let newPanels := st.panels.map (fun p =>
    let isActive := decide (some p.id = targetId)
    { p with active := isActive, ariaHidden := some (!isActive) })
  let newTabs := st.tabs.map (fun t =>
    let isActive := decide (t.target = targetId)
    { t with active := isActive, ariaSelected := some isActive })
  let newFocus :=
    match st.panels.find? (fun p => decide (some p.id = targetId)) with
    | some p =>
      match p.firstInput with
      | some f => some f
      | none => st.focus
    | none => st.focus
  ⟨newPanels, newTabs, newFocus⟩

/-- The `<small>` element next to a field: its text, its
`data-original-text` entry (`none` = unset) and whether its class list
holds `error-message`. -/
structure SmallEl where
  innerText : String
  originalText : Option String
  errorClass : Bool
deriving DecidableEq, Repr

/-- A native `ValidityState`. -/
structure Validity where
  valid : Bool
  valueMissing : Bool
  rangeUnderflow : Bool
  rangeOverflow : Bool
  badInput : Bool
deriving DecidableEq, Repr

/-- A form field (`input` or `select`): disabled flag, whether its class
list holds `invalid`, the adjacent `<small>` (`none` = absent), its native
validity, and the `min` / `max` strings interpolated into messages. -/
structure Field where
  disabled : Bool
  invalidClass : Bool
  small : Option SmallEl
  validity : Validity
  minAttr : String
  maxAttr : String
deriving DecidableEq, Repr

/-- `clearError(el)`: drop the `invalid` class; when the `<small>` exists
and carries a truthy saved original text, restore it and drop the
`error-message` class. -/
def clearError (el : Field) : Field :=
  let el := { el with invalidClass := false }
  match el.small with
  | none => el
  | some sm =>
    match sm.originalText with
    | some orig =>
      if orig = "" then el
      else { el with small := some { sm with innerText := orig, errorClass := false } }
    | none => el

/-- `showError(el, message)`: add the `invalid` class; when the `<small>`
exists, save its text as original (only when no truthy original is saved
yet), replace the text with the message and add the `error-message`
class. -/
def showError (el : Field) (message : String) : Field :=
  let el := { el with invalidClass := true }
  match el.small with
  | none => el
  | some sm =>
    let orig :=
      match sm.originalText with
      | some o => if o = "" then sm.innerText else o
      | none => sm.innerText
    { el with small := some ⟨message, some orig, true⟩ }

/-- The message selection of `validateInput` for an invalid field. -/
def errMessage (el : Field) : String :=
  if el.validity.valueMissing then "This field is required."
  else if el.validity.rangeUnderflow then "Value must be at least " ++ el.minAttr ++ "."
  else if el.validity.rangeOverflow then "Value cannot be more than " ++ el.maxAttr ++ "."
  else if el.validity.badInput then "Please enter a valid number."
  else "The value you entered is invalid."

/-- `validateInput(el)`: clear the error presentation first, report a
disabled field as valid, otherwise render the matching message when the
native validity fails. Returns the mutated field and the reported
validity. -/
def validateInput (el : Field) : Field × Bool :=
  let el := clearError el
  if el.disabled then (el, true)
  else if !el.validity.valid then (showError el (errMessage el), false)
  else (el, true)

/-- `validatePanel(panel)`: `querySelectorAll` keeps the non-disabled
fields in document order and `Array.prototype.every` runs `validateInput`
over them, stopping at the first failure; disabled fields are never
selected and fields past the first failure are never visited.  The
selector filter is fused into the traversal of the panel's field list so
that the untouched fields stay in place. -/
def validatePanel : List Field → List Field × Bool
  | [] => ([], true)
  | f :: rest =>
    if f.disabled then
      let r := validatePanel rest
      (f :: r.1, r.2)
    else
      let v := validateInput f
      if v.2 then
        let r := validatePanel rest
        (v.1 :: r.1, r.2)
      else (v.1 :: rest, false)

/-- The field update `validatePanel` applies to the visited part of the
list: disabled fields are skipped by the selector, the rest go through
`validateInput`. -/
def visitField (f : Field) : Field :=
  if f.disabled then f else (validateInput f).1

/-- Index of the first selected (non-disabled) field whose native validity
fails; the list length when every selected field is valid. -/
def firstInvalidIdx (fs : List Field) : Nat :=
  fs.findIdx (fun f => !f.disabled && !f.validity.valid)

end FormNav

namespace ResScript

/-- A `lookup` hit is a member of the association list. -/
theorem lookup_mem {β : Type _} {k : String} {v : β} :
    ∀ {l : List (String × β)}, l.lookup k = some v → (k, v) ∈ l := by
  intro l
  induction l with
  | nil => intro h; simp [List.lookup] at h
  | cons p t ih =>
    intro h
    obtain ⟨a, b⟩ := p
    by_cases hk : (k == a) = true
    · simp only [List.lookup, hk] at h
      obtain rfl : b = v := Option.some.inj h
      obtain rfl : k = a := by simpa using hk
      exact List.mem_cons_self _ _
    · simp only [List.lookup, Bool.not_eq_true] at hk
      simp only [List.lookup, hk] at h
      exact List.mem_cons_of_mem _ (ih h)

/-- Every entry of the limits table is sane: minimum above the −50
sentinel, minimum at most maximum, maximum below the 500 sentinel, and a
positive step. -/
theorem limits_sane :
    ∀ p ∈ LIMITS, (-50 : ℚ) < p.2.min ∧ p.2.min ≤ p.2.max ∧ p.2.max < 500 ∧ 0 < p.2.step := by
  decide

/-- Sanity of the entry a successful `limitsLookup` returns. -/
theorem limitsLookup_sane {k : String} {lim : Limit} (h : limitsLookup k = some lim) :
    (-50 : ℚ) < lim.min ∧ lim.min ≤ lim.max ∧ lim.max < 500 ∧ 0 < lim.step :=
  limits_sane (k, lim) (lookup_mem h)

/-- `applyLimitsFromMap`, written with its four field updates exposed, on a
slider whose key resolves to a limits entry. -/
theorem applyLimits_eq (s : Slider) (lim : Limit)
    (h : limitsLookup (canonicalKey (featRaw s)) = some lim) :
    applyLimitsFromMap s = { s with
      min := fixMin s.min lim.min
      max := fixMax s.max lim.max
      step := if stepNeedsFix s.step then StepVal.num (if lim.step = 0 then 1 else lim.step)
              else s.step
      value := some (clamp s.value lim.min lim.max) } := by
  unfold applyLimitsFromMap
  rw [h]

/-- The min guard changes the declared minimum exactly when it is NaN,
below −50, or above the canonical minimum. -/
theorem fixMin_ne_iff {cur : JsNum} {cm : ℚ} (hgt : -50 < cm) :
    fixMin cur cm ≠ cur ↔ (cur = none ∨ ∃ q, cur = some q ∧ (q < -50 ∨ cm < q)) := by
  cases cur with
  | none => simp [fixMin]
  | some q =>
    simp only [fixMin]
    by_cases hc : q < -50 ∨ cm < q
    · rw [if_pos hc]
      constructor
      · intro _; exact Or.inr ⟨q, rfl, hc⟩
      · intro _ heq
        have hcm : cm = q := Option.some.inj heq
        rcases hc with h1 | h1
        · rw [hcm] at hgt; exact absurd h1 (not_lt.mpr (le_of_lt hgt))
        · rw [hcm] at h1; exact lt_irrefl _ h1
    · rw [if_neg hc]
      constructor
      · intro hne; exact absurd rfl hne
      · rintro (habs | ⟨q', hq', hcond⟩)
        · exact absurd habs (by simp)
        · obtain rfl : q = q' := Option.some.inj hq'
          exact absurd hcond hc

/-- The max guard changes the declared maximum exactly when it is NaN,
above 500, or below the canonical maximum. -/
theorem fixMax_ne_iff {cur : JsNum} {cm : ℚ} (hlt : cm < 500) :
    fixMax cur cm ≠ cur ↔ (cur = none ∨ ∃ q, cur = some q ∧ (500 < q ∨ q < cm)) := by
  cases cur with
  | none => simp [fixMax]
  | some q =>
    simp only [fixMax]
    by_cases hc : 500 < q ∨ q < cm
    · rw [if_pos hc]
      constructor
      · intro _; exact Or.inr ⟨q, rfl, hc⟩
      · intro _ heq
        have hcm : cm = q := Option.some.inj heq
        rcases hc with h1 | h1
        · rw [hcm] at hlt; exact absurd h1 (not_lt.mpr (le_of_lt hlt))
        · rw [hcm] at h1; exact lt_irrefl _ h1
    · rw [if_neg hc]
      constructor
      · intro hne; exact absurd rfl hne
      · rintro (habs | ⟨q', hq', hcond⟩)
        · exact absurd habs (by simp)
        · obtain rfl : q = q' := Option.some.inj hq'
          exact absurd hcond hc

/-- Slider used against the C1 bound-guard claim: key `age` (canonical
minimum 18, maximum 100), declared minimum 10 — lower, hence looser, than
the canonical minimum and above −50 — and declared maximum 300 — higher,
hence looser, than the canonical maximum and below 500. -/
def c1Slider : Slider := ⟨some "age", "", "", some 10, some 300, .num 1, some 50⟩

end ResScript

namespace ResScript

/-- C1 counterexample.  The claim states that a declared bound looser than
the canonical bound is updated (minimum when lower than canonical, maximum
when higher) and that a tighter declared bound within (−50, 500) is left
unchanged.  On `c1Slider` both declared bounds are looser than canonical
and within (−50, 500), yet `applyLimitsFromMap` leaves both unchanged: the
source guards fire on `curMin > lim.min` and `curMax < lim.max`, the
opposite direction. -/
theorem applyLimits_bound_guard_cex :
    limitsLookup (canonicalKey (featRaw c1Slider)) = some ⟨18, 100, 1⟩ ∧
    c1Slider.min = some 10 ∧ ((10 : ℚ) < 18 ∧ (-50 : ℚ) < 10) ∧
    (applyLimitsFromMap c1Slider).min = some 10 ∧
    c1Slider.max = some 300 ∧ ((100 : ℚ) < 300 ∧ (300 : ℚ) < 500) ∧
    (applyLimitsFromMap c1Slider).max = some 300 := by
  decide

/-- C1 (amended): for every slider whose feature key resolves to a limits
entry, `applyLimitsFromMap` changes the declared minimum exactly when it is
absent (non-numeric), below −50, or tighter — higher — than the canonical
minimum, and changes the declared maximum exactly when it is absent, above
500, or tighter — lower — than the canonical maximum; a declared minimum in
[−50, canonical minimum] and a declared maximum in [canonical maximum, 500]
are left unchanged. -/
theorem applyLimits_bound_guard (s : Slider) (lim : Limit)
    (h : limitsLookup (canonicalKey (featRaw s)) = some lim) :
    ((applyLimitsFromMap s).min ≠ s.min ↔
      (s.min = none ∨ ∃ q, s.min = some q ∧ (q < -50 ∨ lim.min < q))) ∧
    ((applyLimitsFromMap s).max ≠ s.max ↔
      (s.max = none ∨ ∃ q, s.max = some q ∧ (500 < q ∨ q < lim.max))) := by
  obtain ⟨h50, _, h500, _⟩ := limitsLookup_sane h
  rw [applyLimits_eq s lim h]
  exact ⟨fixMin_ne_iff h50, fixMax_ne_iff h500⟩

/-- Witness for the amended C1 at the slider with key `age`, declared
minimum 10 and declared maximum 300: neither bound is changed, matching
the exact-when conditions. -/
theorem applyLimits_bound_guard_witness :
    ((applyLimitsFromMap c1Slider).min ≠ c1Slider.min ↔
      (c1Slider.min = none ∨ ∃ q, c1Slider.min = some q ∧ (q < -50 ∨ (18 : ℚ) < q))) ∧
    ((applyLimitsFromMap c1Slider).max ≠ c1Slider.max ↔
      (c1Slider.max = none ∨ ∃ q, c1Slider.max = some q ∧ (500 < q ∨ q < (100 : ℚ)))) :=
  applyLimits_bound_guard c1Slider ⟨18, 100, 1⟩ (by decide)

/-- The kept-or-repaired declared minimum is numeric and at most the
canonical minimum. -/
theorem fixMin_le (cur : JsNum) (cm : ℚ) : ∃ mn, fixMin cur cm = some mn ∧ mn ≤ cm := by
  cases cur with
  | none => exact ⟨cm, rfl, le_refl _⟩
  | some q =>
    simp only [fixMin]
    by_cases hc : q < -50 ∨ cm < q
    · exact ⟨cm, if_pos hc, le_refl _⟩
    · refine ⟨q, if_neg hc, ?_⟩
      push_neg at hc
      exact hc.2

/-- The kept-or-repaired declared maximum is numeric and at least the
canonical maximum. -/
theorem fixMax_ge (cur : JsNum) (cm : ℚ) : ∃ mx, fixMax cur cm = some mx ∧ cm ≤ mx := by
  cases cur with
  | none => exact ⟨cm, rfl, le_refl _⟩
  | some q =>
    simp only [fixMax]
    by_cases hc : 500 < q ∨ q < cm
    · exact ⟨cm, if_pos hc, le_refl _⟩
    · refine ⟨q, if_neg hc, ?_⟩
      push_neg at hc
      exact hc.2

/-- `clamp` lands in `[lo, hi]` whenever `lo ≤ hi`. -/
theorem clamp_mem (v : JsNum) {lo hi : ℚ} (hle : lo ≤ hi) :
    lo ≤ clamp v lo hi ∧ clamp v lo hi ≤ hi := by
  cases v with
  | none => exact ⟨le_refl _, hle⟩
  | some x => exact ⟨le_min hle (le_max_left lo x), min_le_left _ _⟩

/-- The step guard yields a positive numeric step whenever the prior step
was not an unparseable nonempty string. -/
theorem step_fixed {sv : StepVal} {cs : ℚ} (hs : 0 < cs) (hne : sv ≠ StepVal.other) :
    ∃ q, (if stepNeedsFix sv then StepVal.num (if cs = 0 then 1 else cs) else sv) =
      StepVal.num q ∧ 0 < q := by
  have hcs : (if cs = 0 then (1 : ℚ) else cs) = cs := if_neg (ne_of_gt hs)
  cases sv with
  | empty => exact ⟨cs, by simp [stepNeedsFix, hcs], hs⟩
  | anyStr => exact ⟨cs, by simp [stepNeedsFix, hcs], hs⟩
  | num q =>
    by_cases hq : q ≤ 0
    · exact ⟨cs, by simp [stepNeedsFix, hq, hcs], hs⟩
    · exact ⟨q, by simp [stepNeedsFix, hq], lt_of_not_le hq⟩
  | other => exact absurd rfl hne

/-- Slider used against the C6 range claim: key `age`, but a declared step
that is a nonempty string distinct from `"any"` whose `parseFloat` is NaN
(such as `step="abc"`). -/
def c6Slider : Slider := ⟨some "age", "", "", some 18, some 100, .other, some 50⟩

/-- C6 counterexample.  The claim states that after normalization the
declared step is a positive number for every slider resolving to a limits
entry.  On `c6Slider` the key resolves, yet the unparseable declared step
survives (`parseFloat("abc") <= 0` is false in the source guard), so the
declared step is not a positive number. -/
theorem applyLimits_range_cex :
    limitsLookup (canonicalKey (featRaw c6Slider)) = some ⟨18, 100, 1⟩ ∧
    (applyLimitsFromMap c6Slider).step = StepVal.other ∧
    stepIsPosNum (applyLimitsFromMap c6Slider).step = false := by
  decide

/-- C6 (amended): for every slider whose raw feature key resolves directly
or via the synonym table to a limits entry, after `applyLimitsFromMap` the
declared minimum and maximum are numeric with declared minimum ≤ value ≤
declared maximum, a non-numeric prior value is set to the canonical
minimum, and the declared step is a positive number unless the prior
declared step was a nonempty non-`"any"` string that does not parse as a
number, which is kept unchanged. -/
theorem applyLimits_range (s : Slider) (lim : Limit)
    (h : limitsLookup (canonicalKey (featRaw s)) = some lim) :
    ∃ mn v mx, (applyLimitsFromMap s).min = some mn ∧
      (applyLimitsFromMap s).value = some v ∧
      (applyLimitsFromMap s).max = some mx ∧
      mn ≤ v ∧ v ≤ mx ∧
      (s.step ≠ StepVal.other → ∃ q, (applyLimitsFromMap s).step = StepVal.num q ∧ 0 < q) ∧
      (s.value = none → v = lim.min) := by
  obtain ⟨h50, hmm, h500, hstep⟩ := limitsLookup_sane h
  obtain ⟨mn, hmn, hmnle⟩ := fixMin_le s.min lim.min
  obtain ⟨mx, hmx, hmxge⟩ := fixMax_ge s.max lim.max
  obtain ⟨hlo, hhi⟩ := clamp_mem s.value hmm
  refine ⟨mn, clamp s.value lim.min lim.max, mx, ?_, ?_, ?_, ?_, ?_, ?_, ?_⟩
  · rw [applyLimits_eq s lim h]; exact hmn
  · rw [applyLimits_eq s lim h]
  · rw [applyLimits_eq s lim h]; exact hmx
  · exact le_trans hmnle hlo
  · exact le_trans hhi hmxge
  · intro hne
    obtain ⟨q, hq, hqpos⟩ := step_fixed hstep hne
    refine ⟨q, ?_, hqpos⟩
    rw [applyLimits_eq s lim h]
    exact hq
  · intro hv
    rw [hv]
    rfl

/-- Witness for the amended C6 at the slider with key `age`, declared
bounds 10 and 300 and value 50. -/
theorem applyLimits_range_witness :
    ∃ mn v mx, (applyLimitsFromMap c1Slider).min = some mn ∧
      (applyLimitsFromMap c1Slider).value = some v ∧
      (applyLimitsFromMap c1Slider).max = some mx ∧
      mn ≤ v ∧ v ≤ mx ∧
      (c1Slider.step ≠ StepVal.other →
        ∃ q, (applyLimitsFromMap c1Slider).step = StepVal.num q ∧ 0 < q) ∧
      (c1Slider.value = none → v = (18 : ℚ)) :=
  applyLimits_range c1Slider ⟨18, 100, 1⟩ (by decide)

/-- C9: canonical-key resolution is idempotent on the canonical keys of
the limits table: each key normalizes to itself and hits the direct-match
branch. -/
theorem canonicalKey_idempotent : ∀ p ∈ LIMITS, canonicalKey p.1 = p.1 := by
  decide

/-- Witness for C9 at the canonical key `"age"`. -/
theorem canonicalKey_idempotent_witness : canonicalKey "age" = "age" :=
  canonicalKey_idempotent ("age", ⟨18, 100, 1⟩) (by decide)

end ResScript

namespace ResScript

/-- Page state for the C7 witness: no baseline input object, enabled
button with the idle label. -/
def c7State : PageState := ⟨[], false, false, "Update Prediction", none, none, [], []⟩

/-- C7: when the page-level baseline input object is undefined, the click
handler alerts and returns before touching the button or issuing the
request: no request is recorded, the alert is shown, and the button stays
enabled with its idle label; nothing else on the page changes either. -/
theorem missingBase_aborts (st : PageState) (resp : FetchResult)
    (hb : st.baseDefined = false)
    (he : st.btnDisabled = false) (hl : st.btnLabel = "Update Prediction") :
    (clickHandler st resp).requests = st.requests ∧
    (clickHandler st resp).alerts = st.alerts ++ [missingBaseMsg] ∧
    (clickHandler st resp).btnDisabled = false ∧
    (clickHandler st resp).btnLabel = "Update Prediction" ∧
    (clickHandler st resp).sliders = st.sliders ∧
    (clickHandler st resp).resultText = st.resultText ∧
    (clickHandler st resp).suggList = st.suggList := by
  simp [clickHandler, hb, he, hl]

/-- Witness for C7 on the concrete page with no baseline inputs. -/
theorem missingBase_aborts_witness :
    (clickHandler c7State FetchResult.netError).requests = c7State.requests ∧
    (clickHandler c7State FetchResult.netError).alerts = c7State.alerts ++ [missingBaseMsg] ∧
    (clickHandler c7State FetchResult.netError).btnDisabled = false ∧
    (clickHandler c7State FetchResult.netError).btnLabel = "Update Prediction" ∧
    (clickHandler c7State FetchResult.netError).sliders = c7State.sliders ∧
    (clickHandler c7State FetchResult.netError).resultText = c7State.resultText ∧
    (clickHandler c7State FetchResult.netError).suggList = c7State.suggList :=
  missingBase_aborts c7State FetchResult.netError rfl rfl rfl

/-- Page state for the C8 witness. -/
def c8State : PageState :=
  ⟨[⟨some "age", "", "", some 18, some 100, .num 1, some 50⟩],
    true, false, "Update Prediction", some "12.0%", some ["old tip"], [], []⟩

/-- Response body for the C8 witness. -/
def c8Resp : RespData := ⟨some "Low Risk", some (mkRat 1 2), none, none, none⟩

/-- C8: on a non-success response status the update cycle aborts through
the thrown and caught error: the failure alert is shown and the result
element, suggestions list and sliders keep their prior state; and for
every outcome of the request the `finally` step re-enables the button and
restores its idle label. -/
theorem httpError_aborts (st : PageState) (code : Nat) (resp : FetchResult)
    (hb : st.baseDefined = true) :
    ((clickHandler st (FetchResult.httpError code)).resultText = st.resultText ∧
     (clickHandler st (FetchResult.httpError code)).suggList = st.suggList ∧
     (clickHandler st (FetchResult.httpError code)).sliders = st.sliders ∧
     (clickHandler st (FetchResult.httpError code)).alerts = st.alerts ++ [updateFailedMsg]) ∧
    ((clickHandler st resp).btnDisabled = false ∧
     (clickHandler st resp).btnLabel = "Update Prediction") := by
  constructor
  · simp [clickHandler, hb]
  · cases resp <;> simp [clickHandler, hb]

/-- Witness for C8 on a concrete page, status 500 for the abort part and a
successful response for the cleanup part. -/
theorem httpError_aborts_witness :
    ((clickHandler c8State (FetchResult.httpError 500)).resultText = c8State.resultText ∧
     (clickHandler c8State (FetchResult.httpError 500)).suggList = c8State.suggList ∧
     (clickHandler c8State (FetchResult.httpError 500)).sliders = c8State.sliders ∧
     (clickHandler c8State (FetchResult.httpError 500)).alerts = c8State.alerts ++ [updateFailedMsg]) ∧
    ((clickHandler c8State (FetchResult.ok c8Resp)).btnDisabled = false ∧
     (clickHandler c8State (FetchResult.ok c8Resp)).btnLabel = "Update Prediction") :=
  httpError_aborts c8State 500 (FetchResult.ok c8Resp) rfl

/-- `updateFirstMatch` never touches a position holding a slider without a
`data-feat` attribute: the selector requires the attribute. -/
theorem updateFirstMatch_no_feat {nm : String} {v : JsNum} :
    ∀ {l : List Slider} {i : Nat} {s : Slider}, l.get? i = some s → s.datasetFeat = none →
      (updateFirstMatch nm v l).get? i = some s := by
  intro l
  induction l with
  | nil => intro i s h _; simp at h
  | cons a t ih =>
    intro i s h hfeat
    by_cases ha : a.datasetFeat = some nm
    · cases i with
      | zero =>
        rw [List.get?_cons_zero] at h
        obtain rfl : a = s := Option.some.inj h
        rw [ha] at hfeat
        cases hfeat
      | succ n =>
        rw [List.get?_cons_succ] at h
        simp only [updateFirstMatch, if_pos ha, List.get?_cons_succ]
        exact h
    · cases i with
      | zero =>
        rw [List.get?_cons_zero] at h
        simp only [updateFirstMatch, if_neg ha, List.get?_cons_zero]
        exact h
      | succ n =>
        rw [List.get?_cons_succ] at h
        simp only [updateFirstMatch, if_neg ha, List.get?_cons_succ]
        exact ih h hfeat

/-- Neither does the whole corrections loop. -/
theorem applyCorrections_no_feat {i : Nat} {s : Slider} (hfeat : s.datasetFeat = none) :
    ∀ (items : List Correction) (l : List Slider), l.get? i = some s →
      (applyCorrections l items).get? i = some s := by
  intro items
  induction items with
  | nil => intro l h; exact h
  | cons c t ih =>
    intro l h
    have hfold : applyCorrections l (c :: t) =
        applyCorrections (updateFirstMatch c.name c.value l) t := rfl
    rw [hfold]
    exact ih _ (updateFirstMatch_no_feat h hfeat)

/-- With no `data-feat` attribute and a nonempty `id`, the raw feature key
falls back to the `id`. -/
theorem featRaw_id {s : Slider} (hfeat : s.datasetFeat = none) (hid : s.id ≠ "") :
    featRaw s = s.id := by
  simp [featRaw, hfeat, hid]

/-- Every slider with a truthy raw feature key contributes that key to the
`modified` map. -/
theorem buildModified_mem {s : Slider} {l : List Slider} (hs : s ∈ l) (hk : featRaw s ≠ "") :
    (featRaw s, s.value) ∈ buildModified l := by
  simp only [buildModified, List.mem_filterMap]
  exact ⟨s, hs, by rw [if_neg hk]⟩

/-- The sliders after a successful update cycle are the prior sliders with
the corrections loop applied (or untouched when the response carries no
corrections). -/
theorem clickHandler_sliders_eq (st : PageState) (d : RespData) (hb : st.baseDefined = true) :
    (clickHandler st (FetchResult.ok d)).sliders =
      (d.top_features_values).elim st.sliders (applyCorrections st.sliders) := by
  cases htop : d.top_features_values <;> simp [clickHandler, hb, applySuccess, htop]

/-- The requests issued by a successful update cycle. -/
theorem clickHandler_requests_eq (st : PageState) (d : RespData) (hb : st.baseDefined = true) :
    (clickHandler st (FetchResult.ok d)).requests = st.requests ++ [buildModified st.sliders] := by
  simp [clickHandler, hb, applySuccess]

/-- C10: a slider with no `data-feat` attribute but a nonempty `id` does
contribute its value to the outgoing `modified` map under that `id`, yet
the correction step — which locates sliders only through the
`input.slider[data-feat="..."]` selector — never locates or updates it,
whatever `top_features_values` the server returns. -/
theorem corrections_require_dataFeat (st : PageState) (d : RespData) (i : Nat) (s : Slider)
    (hb : st.baseDefined = true)
    (hi : st.sliders.get? i = some s) (hfeat : s.datasetFeat = none) (hid : s.id ≠ "") :
    (s.id, s.value) ∈ buildModified st.sliders ∧
    (clickHandler st (FetchResult.ok d)).requests = st.requests ++ [buildModified st.sliders] ∧
    (clickHandler st (FetchResult.ok d)).sliders.get? i = some s := by
  refine ⟨?_, clickHandler_requests_eq st d hb, ?_⟩
  · have hmem := buildModified_mem (List.get?_mem hi)
      (by rw [featRaw_id hfeat hid]; exact hid)
    rwa [featRaw_id hfeat hid] at hmem
  · rw [clickHandler_sliders_eq st d hb]
    cases htop : d.top_features_values with
    | none => exact hi
    | some items => exact applyCorrections_no_feat hfeat items st.sliders hi

/-- Page state for the C10 witness: one slider identified only by `id`
`"thalach"`; the server answers with a correction named `"thalach"`. -/
def c10State : PageState :=
  ⟨[⟨none, "thalach", "", some 60, some 220, .num 1, some 150⟩],
    true, false, "Update Prediction", none, none, [], []⟩

/-- Response for the C10 witness: a correction named after the slider's
`id`. -/
def c10Resp : RespData := ⟨none, none, none, none, some [⟨"thalach", some 80⟩]⟩

/-- Witness for C10: the slider's value goes out under `"thalach"`, yet
the returned correction for `"thalach"` leaves the slider untouched. -/
theorem corrections_require_dataFeat_witness :
    ("thalach", (some 150 : JsNum)) ∈ buildModified c10State.sliders ∧
    (clickHandler c10State (FetchResult.ok c10Resp)).requests =
      c10State.requests ++ [buildModified c10State.sliders] ∧
    (clickHandler c10State (FetchResult.ok c10Resp)).sliders.get? 0 =
      some ⟨none, "thalach", "", some 60, some 220, .num 1, some 150⟩ :=
  corrections_require_dataFeat c10State c10Resp 0
    ⟨none, "thalach", "", some 60, some 220, .num 1, some 150⟩
    rfl rfl rfl (by decide)

end ResScript

namespace FormNav

/-- Navigator state for the C2 and C3 counterexamples: one active panel
`p1` with a focusable field `f1`, one matching active tab, focus on `f1`. -/
def navState0 : NavState :=
  ⟨[⟨"p1", true, some false, some "f1"⟩], [⟨some "p1", true, some true⟩], some "f1"⟩

/-- C2 counterexample.  The claim states that `showPanel` with an
identifier resolving to no panel is a no-op.  On `navState0` the
identifier `"nope"` resolves to no panel, yet the call deactivates the
active panel and de-selects the active tab (the `forEach` toggles run
unconditionally); only the focus is untouched. -/
theorem showPanel_unresolved_cex :
    navState0.panels.all (fun p => p.id != "nope") = true ∧
    navState0.panels.map Panel.active = [true] ∧
    (showPanelById navState0 (some "nope")).panels.map Panel.active = [false] ∧
    navState0.tabs.map Tab.active = [true] ∧
    (showPanelById navState0 (some "nope")).tabs.map Tab.active = [false] := by
  decide

/-- C2 (amended): for a target identifier that resolves to no panel,
`showPanel` does not move focus, but it deactivates and hides every panel
(so it is not a no-op whenever some panel was active) and re-derives every
tab's selected state from whether its own target equals the identifier. -/
theorem showPanel_unresolved (st : NavState) (targetId : Option String)
    (h : ∀ p ∈ st.panels, some p.id ≠ targetId) :
    (showPanelById st targetId).focus = st.focus ∧
    (∀ p ∈ (showPanelById st targetId).panels, p.active = false) ∧
    (∀ t ∈ (showPanelById st targetId).tabs, t.active = decide (t.target = targetId)) := by
  refine ⟨?_, ?_, ?_⟩
  · have hfind : st.panels.find? (fun p => decide (some p.id = targetId)) = none := by
      rw [List.find?_eq_none]
      intro p hp
      simpa using h p hp
    simp only [showPanelById, hfind]
  · intro p hp
    simp only [showPanelById, List.mem_map] at hp
    obtain ⟨p0, hp0, rfl⟩ := hp
    simpa using h p0 hp0
  · intro t ht
    simp only [showPanelById, List.mem_map] at ht
    obtain ⟨t0, ht0, rfl⟩ := ht
    rfl

/-- Witness for the amended C2 on the concrete single-panel state and the
dangling identifier `"nope"`. -/
theorem showPanel_unresolved_witness :
    (showPanelById navState0 (some "nope")).focus = navState0.focus ∧
    (∀ p ∈ (showPanelById navState0 (some "nope")).panels, p.active = false) ∧
    (∀ t ∈ (showPanelById navState0 (some "nope")).tabs,
      t.active = decide (t.target = some "nope")) :=
  showPanel_unresolved navState0 (some "nope") (by decide)

/-- C3 counterexample.  The claim states that from a state with exactly
one active panel every navigator operation leaves exactly one panel
active.  `showPanel` with an identifier resolving to no panel — exactly
what a tab click with a dangling `data-target` forwards — leaves zero
panels active. -/
theorem active_invariant_cex :
    navState0.panels.countP (fun p => p.active) = 1 ∧
    navState0.panels.all (fun p => p.id != "nope") = true ∧
    (showPanelById navState0 (some "nope")).panels.countP (fun p => p.active) = 0 := by
  decide

/-- C3 (amended): after any `showPanel` call — and every navigator
operation changes panel active state only through `showPanel` — the number
of active panels equals the number of panels whose identifier equals the
requested target: exactly one when the target names exactly one existing
panel, zero when it resolves to none. -/
theorem showPanel_active_count (st : NavState) (targetId : Option String) :
    (showPanelById st targetId).panels.countP (fun p => p.active) =
      st.panels.countP (fun p => decide (some p.id = targetId)) := by
  simp only [showPanelById]
  rw [List.countP_map]
  rfl

end FormNav

namespace FormNav

/-- `clearError` never touches the `disabled` flag. -/
theorem clearError_disabled (el : Field) : (clearError el).disabled = el.disabled := by
  obtain ⟨d, ic, sm, va, mn, mx⟩ := el
  cases sm with
  | none => rfl
  | some s =>
    cases hs : s.originalText with
    | none => simp [clearError, hs]
    | some o => by_cases ho : o = "" <;> simp [clearError, hs, ho]

/-- `clearError` never touches the native validity. -/
theorem clearError_validity (el : Field) : (clearError el).validity = el.validity := by
  obtain ⟨d, ic, sm, va, mn, mx⟩ := el
  cases sm with
  | none => rfl
  | some s =>
    cases hs : s.originalText with
    | none => simp [clearError, hs]
    | some o => by_cases ho : o = "" <;> simp [clearError, hs, ho]

/-- The validity flag `validateInput` reports: true for a disabled field,
the native validity otherwise. -/
theorem validateInput_snd (f : Field) : (validateInput f).2 = (f.disabled || f.validity.valid) := by
  have hd := clearError_disabled f
  have hv := clearError_validity f
  by_cases h : f.disabled = true
  · simp [validateInput, hd, h]
  · by_cases h2 : f.validity.valid = true <;>
      simp [validateInput, hd, hv, h, h2]

/-- Field for the C4 counterexample: disabled, but carrying a rendered
error presentation (the `invalid` marker and a replaced message). -/
def c4Field : Field :=
  ⟨true, true, some ⟨"This field is required.", some "Enter your age", true⟩,
    ⟨true, false, false, false, false⟩, "18", "100"⟩

/-- C4 counterexample.  The claim states that `validateField` on a
disabled field reports valid and performs no DOM error mutation.  It does
report valid, but `clearError` runs before the disabled check: on
`c4Field` the `invalid` marker is removed, the message restored and the
`error-message` class dropped. -/
theorem validateInput_disabled_cex :
    c4Field.disabled = true ∧
    (validateInput c4Field).2 = true ∧
    c4Field.invalidClass = true ∧
    (validateInput c4Field).1.invalidClass = false ∧
    (validateInput c4Field).1 ≠ c4Field := by
  decide

/-- C4 (amended): `validateField` on a disabled field reports valid and
renders no error, but it first clears any prior error presentation — its
whole effect is exactly `clearError` —; a disabled field on which
`clearError` is the identity (no prior error presentation) is left
exactly as it was. -/
theorem validateInput_disabled (el : Field) (h : el.disabled = true) :
    validateInput el = (clearError el, true) ∧
    (clearError el = el → validateInput el = (el, true)) := by
  have hd : (clearError el).disabled = true := by rw [clearError_disabled, h]
  have h1 : validateInput el = (clearError el, true) := by
    simp [validateInput, hd]
  exact ⟨h1, fun hce => by rw [h1, hce]⟩

/-- Witness for the amended C4 on the concrete disabled field carrying an
error presentation. -/
theorem validateInput_disabled_witness :
    validateInput c4Field = (clearError c4Field, true) ∧
    (clearError c4Field = c4Field → validateInput c4Field = (c4Field, true)) :=
  validateInput_disabled c4Field rfl

/-- Two enabled fields whose native validity fails (value missing). -/
def c5BadA : Field := ⟨false, false, none, ⟨false, true, false, false, false⟩, "18", "100"⟩

/-- A second invalid enabled field, after the first in its panel. -/
def c5BadB : Field := ⟨false, false, none, ⟨false, false, false, true, false⟩, "40", "200"⟩

/-- C5 counterexample.  The claim states that `validatePanel` renders or
clears the error presentation of every non-disabled field of the panel.
`Array.prototype.every` stops at the first failing field: with two invalid
fields the second is returned exactly as it was, with no invalid marker
rendered, even though it is non-disabled and invalid. -/
theorem validatePanel_renders_cex :
    c5BadB.disabled = false ∧
    c5BadB.validity.valid = false ∧
    (validatePanel [c5BadA, c5BadB]).2 = false ∧
    (validatePanel [c5BadA, c5BadB]).1.get? 0 = some (validateInput c5BadA).1 ∧
    (validateInput c5BadA).1.invalidClass = true ∧
    (validatePanel [c5BadA, c5BadB]).1.get? 1 = some c5BadB ∧
    c5BadB.invalidClass = false := by
  decide

/-- C5 (amended): `validatePanel` returns true iff every non-disabled
field of the panel is individually valid; its side effect renders or
clears the error presentation of each non-disabled field up to and
including the first invalid one, and leaves every later field — and every
disabled field — untouched. -/
theorem validatePanel_spec (fs : List Field) :
    validatePanel fs =
      ((fs.take (firstInvalidIdx fs + 1)).map visitField ++ fs.drop (firstInvalidIdx fs + 1),
       fs.all (fun f => f.disabled || f.validity.valid)) := by
  induction fs with
  | nil => rfl
  | cons f t ih =>
    by_cases hd : f.disabled = true
    · have hidx : firstInvalidIdx (f :: t) = firstInvalidIdx t + 1 := by
        simp [firstInvalidIdx, List.findIdx_cons, hd]
      simp [validatePanel, hd, hidx, ih, visitField, List.take_succ_cons,
        List.drop_succ_cons]
    · have hd' : f.disabled = false := by simpa using hd
      by_cases hv : f.validity.valid = true
      · have hidx : firstInvalidIdx (f :: t) = firstInvalidIdx t + 1 := by
          simp [firstInvalidIdx, List.findIdx_cons, hd', hv]
        have hsnd : (validateInput f).2 = true := by
          rw [validateInput_snd, hd', hv]; rfl
        simp [validatePanel, hd', hv, hsnd, hidx, ih, visitField,
          List.take_succ_cons, List.drop_succ_cons]
      · have hv' : f.validity.valid = false := by simpa using hv
        have hidx : firstInvalidIdx (f :: t) = 0 := by
          simp [firstInvalidIdx, List.findIdx_cons, hd', hv']
        have hsnd : (validateInput f).2 = false := by
          rw [validateInput_snd, hd', hv']; rfl
        simp [validatePanel, hd', hv', hsnd, hidx, visitField]

end FormNav
